import Mathlib

/-
Verification of the bidirectional relay in unmute_ros_bridge_client.py.

The source is a websocket bridge with two forwarding coroutines:

  forward_audio_to_unmute    (laptop to unmute):  for each received frame,
    json.loads it, and when its type field equals "audio", send an object
    with keys type / audio / format, where audio is the inbound data field
    and format is the constant "int16".  The whole loop body sits inside a
    try / except Exception handler that logs and continues.

  forward_response_to_laptop (unmute to laptop):  for each received frame,
    json.loads it; when type is "response.audio.delta" send an object with
    keys type / audio (audio is the inbound delta); when type is
    "response.text.delta" send an object with keys type / text (text is the
    inbound delta).  Same blanket try / except around the body.

  run_bridge: while True: connect both sides, asyncio.gather both loops;
  on any exception, log and await asyncio.sleep(3), then retry.

We embed each loop body as a pure translation function on envelopes
(association lists of string keys to JSON values), and each loop as a fold
over the finite sequence of frames delivered by the transport before the
stream ended.  A per-frame Boolean records whether the send call for that
frame (if one is attempted) succeeds; a failing send raises inside the try
block and is caught by the blanket handler, exactly like the source.
-/

namespace UnmuteBridge

/-- A JSON scalar or an abstract composite value.  The bridge never inspects
the structure of payload values (they are copied verbatim), so arrays and
objects are represented abstractly by `comp` with an identifying index. -/
inductive JVal where
  | str (s : String)
  | num (n : Int)
  | boolean (b : Bool)
  | null
  | comp (n : Nat)
  deriving DecidableEq, Repr

/-- A decoded JSON object: an association list from field names to values,
modelling the Python dict produced by json.loads.  Python dicts have unique
keys, so first-match lookup agrees with dict lookup. -/
abbrev Envelope := List (String × JVal)

/-- Field lookup, modelling Python dict.get: the value at the key, if present. -/
def jget (e : Envelope) (k : String) : Option JVal :=
  match e with
  | [] => none
  | (k2, v) :: rest => if k2 == k then some v else jget rest k

/-- One frame delivered by the websocket before the stream ended.  `ok`
carries the decoded JSON object; `bad` is a frame on which the decode step
(json.loads, or attribute access on a non-object result) raises, which the
blanket except handler in the source catches. -/
inductive Frame where
  | ok (e : Envelope)
  | bad
  deriving DecidableEq, Repr

/-- Outcome of one loop body on a decoded envelope, before the send call:
either exactly one outbound envelope is produced, or the message is dropped
without any exception (unrecognized type), or a required field of a
recognized type is missing and the subscript raises KeyError. -/
inductive TransResult where
  | sent (e : Envelope)
  | drop
  | fieldError
  deriving DecidableEq, Repr

/-- Translation step of forward_audio_to_unmute (source lines 29-38): when
the type field equals "audio", build the outbound object with keys type,
audio, format in that order, where audio is the inbound data field; a
missing data field raises KeyError (fieldError); any other type falls
through with no output. -/
def forward_audio_translate (data : Envelope) : TransResult :=
  if jget data "type" = some (JVal.str "audio") then
    match jget data "data" with
    | some v =>
        TransResult.sent
          [("type", JVal.str "unmute.input_audio_buffer.append_pcm"),
           ("audio", v),
           ("format", JVal.str "int16")]
    | none => TransResult.fieldError
  else
    TransResult.drop

/-- Translation step of forward_response_to_laptop (source lines 46-65):
msg_type = data.get("type"); on "response.audio.delta" build the object
with keys type, audio from the inbound delta; on "response.text.delta"
build the object with keys type, text from the inbound delta; a missing
delta raises KeyError; any other type falls through with no output. -/
def forward_response_translate (data : Envelope) : TransResult :=
  let msg_type := jget data "type"
  if msg_type = some (JVal.str "response.audio.delta") then
    match jget data "delta" with
    | some v =>
        TransResult.sent
          [("type", JVal.str "robot.voice_audio"),
           ("audio", v)]
    | none => TransResult.fieldError
  else if msg_type = some (JVal.str "response.text.delta") then
    match jget data "delta" with
    | some v =>
        TransResult.sent
          [("type", JVal.str "robot.text"),
           ("text", v)]
    | none => TransResult.fieldError
  else
    TransResult.drop

/-- A forwarding loop over the finite sequence of frames the transport
delivered before the stream ended, returning the envelopes successfully
sent to the destination, in order, together with the number of exceptions
caught and logged by the per-message except handler.  Each list element
pairs the frame with whether the send call for that frame succeeds, should
one be attempted; a send that raises is caught by the same handler.  The
loop itself terminates only because the input stream ends: no exception in
the body escapes. -/
def runLoop (translate : Envelope → TransResult) :
    List (Frame × Bool) → List Envelope × Nat
  | [] => ([], 0)
  | (f, sendOk) :: rest =>
    let r := runLoop translate rest
    match f with
    | Frame.bad => (r.1, r.2 + 1)
    | Frame.ok env =>
      match translate env with
      | TransResult.sent out => if sendOk then (out :: r.1, r.2) else (r.1, r.2 + 1)
      | TransResult.drop => r
      | TransResult.fieldError => (r.1, r.2 + 1)

/-- The laptop-to-unmute forwarding loop (source lines 26-40). -/
def forward_audio_to_unmute (frames : List (Frame × Bool)) : List Envelope × Nat :=
  runLoop forward_audio_translate frames

/-- The unmute-to-laptop forwarding loop (source lines 43-70). -/
def forward_response_to_laptop (frames : List (Frame × Bool)) : List Envelope × Nat :=
  runLoop forward_response_translate frames

/-- Status of one forwarding task at some instant of the session. -/
inductive TaskStatus where
  | running
  | done
  | raised
  deriving DecidableEq, Repr

/-- Completion condition of `await asyncio.gather(a, b)` at source line 73,
per the documented semantics of asyncio.gather without return_exceptions:
the await returns when every child has finished, and raises as soon as any
child raises; a child that merely finished while its sibling still runs
does not complete the gather.  The session body after the gather (and,
through the surrounding context managers, the closing of both connections)
runs only once this condition holds. -/
def gatherCompleted : TaskStatus → TaskStatus → Bool
  | TaskStatus.raised, _ => true
  | _, TaskStatus.raised => true
  | TaskStatus.done, TaskStatus.done => true
  | _, _ => false

/-- How one iteration of the while True body of run_bridge ends: either
some awaited call raised (a failed connect, or an exception propagating out
of the gather) and control reached the except branch, or the body ran to
completion with no exception (both loops returned cleanly). -/
inductive IterationEnd where
  | byException
  | cleanReturn
  deriving DecidableEq, Repr

/-- The backoff constant of run_bridge: asyncio.sleep(3) at source line 81. -/
def BACKOFF_SECONDS : Nat := 3

/-- Delay awaited by run_bridge between the end of one iteration and the
next connect attempt (source lines 78-81): the except branch sleeps for
BACKOFF_SECONDS; a body that completes without an exception reaches the
top of the while loop with no sleep. -/
def run_bridge_delay : IterationEnd → Nat
  | IterationEnd.byException => BACKOFF_SECONDS
  | IterationEnd.cleanReturn => 0

/-- Whether run_bridge proceeds to another iteration after an iteration
ends this way: the loop is while True and the except clause catches every
Exception, so every ending is followed by a retry. -/
def run_bridge_continues : IterationEnd → Bool :=
  fun _ => true

/-- Outbound envelope produced by one received frame, none when the frame
is undecodable, dropped, or malformed. -/
def translatedOutput (t : Envelope → TransResult) (f : Frame) : Option Envelope :=
  match f with
  | Frame.bad => none
  | Frame.ok e =>
    match t e with
    | TransResult.sent out => some out
    | TransResult.drop => none
    | TransResult.fieldError => none

/-- Sample inbound robot-side audio envelope used for concrete instances. -/
def sampleAudio1 : Envelope := [("type", JVal.str "audio"), ("data", JVal.str "AAA=")]

/-- A second sample inbound robot-side audio envelope. -/
def sampleAudio2 : Envelope := [("type", JVal.str "audio"), ("data", JVal.str "BBB=")]

/-- Sample inbound speech-side audio delta envelope. -/
def sampleAudioDelta : Envelope :=
  [("type", JVal.str "response.audio.delta"), ("delta", JVal.str "T3B1cw==")]

/-- Sample inbound speech-side text delta envelope. -/
def sampleTextDelta : Envelope :=
  [("type", JVal.str "response.text.delta"), ("delta", JVal.str "hello")]

section Lemmas

/-- A successful robot-side translation only happens on type "audio". -/
lemma forward_audio_sent_type {e out : Envelope}
    (h : forward_audio_translate e = TransResult.sent out) :
    jget e "type" = some (JVal.str "audio") := by
  by_cases hc : jget e "type" = some (JVal.str "audio")
  · exact hc
  · simp [forward_audio_translate, hc] at h

/-- Shape of every envelope a successful robot-side translation produces. -/
lemma forward_audio_sent_shape {e out : Envelope}
    (h : forward_audio_translate e = TransResult.sent out) :
    ∃ v, out = [("type", JVal.str "unmute.input_audio_buffer.append_pcm"),
                ("audio", v), ("format", JVal.str "int16")] := by
  by_cases hc : jget e "type" = some (JVal.str "audio")
  · rw [forward_audio_translate, if_pos hc] at h
    cases hd : jget e "data" with
    | none => rw [hd] at h; cases h
    | some v => rw [hd] at h; exact ⟨v, (TransResult.sent.injEq _ _).mp h.symm⟩
  · simp [forward_audio_translate, hc] at h

/-- A successful speech-side translation only happens on the two delta types. -/
lemma forward_response_sent_type {e out : Envelope}
    (h : forward_response_translate e = TransResult.sent out) :
    jget e "type" = some (JVal.str "response.audio.delta") ∨
    jget e "type" = some (JVal.str "response.text.delta") := by
  by_cases h1 : jget e "type" = some (JVal.str "response.audio.delta")
  · exact Or.inl h1
  · by_cases h2 : jget e "type" = some (JVal.str "response.text.delta")
    · exact Or.inr h2
    · simp [forward_response_translate, h1, h2] at h

/-- Shape of every envelope a successful speech-side translation produces. -/
lemma forward_response_sent_shape {e out : Envelope}
    (h : forward_response_translate e = TransResult.sent out) :
    (∃ v, out = [("type", JVal.str "robot.voice_audio"), ("audio", v)]) ∨
    (∃ v, out = [("type", JVal.str "robot.text"), ("text", v)]) := by
  by_cases h1 : jget e "type" = some (JVal.str "response.audio.delta")
  · rw [forward_response_translate] at h
    simp only [h1, if_pos] at h
    cases hd : jget e "delta" with
    | none => rw [hd] at h; cases h
    | some v =>
        rw [hd] at h
        exact Or.inl ⟨v, (TransResult.sent.injEq _ _).mp h.symm⟩
  · by_cases h2 : jget e "type" = some (JVal.str "response.text.delta")
    · rw [forward_response_translate] at h
      simp only [h1, h2, if_pos, if_neg, if_false] at h
      cases hd : jget e "delta" with
      | none => rw [hd] at h; cases h
      | some v =>
          rw [hd] at h
          exact Or.inr ⟨v, (TransResult.sent.injEq _ _).mp h.symm⟩
    · simp [forward_response_translate, h1, h2] at h

/-- Everything in the sent list of a loop run came from a successful
translation of some received envelope. -/
lemma runLoop_mem_sent {t : Envelope → TransResult}
    {frames : List (Frame × Bool)} {out : Envelope}
    (h : out ∈ (runLoop t frames).1) :
    ∃ e, t e = TransResult.sent out := by
  induction frames with
  | nil => cases h
  | cons fb rest ih =>
      obtain ⟨f, sendOk⟩ := fb
      cases f with
      | bad => exact ih h
      | ok e =>
          cases hte : t e with
          | sent o =>
              by_cases hs : sendOk = true
              · rw [runLoop] at h
                simp only [hte, hs, if_true] at h
                rcases List.mem_cons.mp h with heq | hmem
                · exact ⟨e, by rw [hte, heq]⟩
                · exact ih hmem
              · rw [runLoop] at h
                simp only [hte, hs, if_false, Bool.false_eq_true] at h
                exact ih h
          | drop =>
              rw [runLoop] at h
              simp only [hte] at h
              exact ih h
          | fieldError =>
              rw [runLoop] at h
              simp only [hte] at h
              exact ih h

/-- When every send succeeds, the loop sends exactly the order-preserving
map of the translation over the received frames, drops removed. -/
lemma runLoop_allSendsOk (t : Envelope → TransResult) (frames : List Frame) :
    (runLoop t (frames.map (fun f => (f, true)))).1 =
      frames.filterMap (translatedOutput t) := by
  induction frames with
  | nil => rfl
  | cons f rest ih =>
      cases f with
      | bad => simpa [runLoop, translatedOutput] using ih
      | ok e =>
          cases hte : t e <;>
            simp [runLoop, translatedOutput, hte, ih]

end Lemmas

/-- C1: the translator implements exactly the three recognized mappings.
An inbound envelope of type "audio" with data = X yields exactly one
outbound envelope with type "unmute.input_audio_buffer.append_pcm",
audio = X and format = "int16"; an inbound "response.audio.delta" with
delta = Y yields exactly the envelope with type "robot.voice_audio" and
audio = Y; an inbound "response.text.delta" with delta = Z yields exactly
the envelope with type "robot.text" and text = Z. -/
theorem claim_C1_translator_mappings :
    (∀ (e : Envelope) (v : JVal),
        jget e "type" = some (JVal.str "audio") →
        jget e "data" = some v →
        forward_audio_translate e =
          TransResult.sent
            [("type", JVal.str "unmute.input_audio_buffer.append_pcm"),
             ("audio", v), ("format", JVal.str "int16")]) ∧
    (∀ (e : Envelope) (v : JVal),
        jget e "type" = some (JVal.str "response.audio.delta") →
        jget e "delta" = some v →
        forward_response_translate e =
          TransResult.sent
            [("type", JVal.str "robot.voice_audio"), ("audio", v)]) ∧
    (∀ (e : Envelope) (v : JVal),
        jget e "type" = some (JVal.str "response.text.delta") →
        jget e "delta" = some v →
        forward_response_translate e =
          TransResult.sent
            [("type", JVal.str "robot.text"), ("text", v)]) := by
  refine ⟨?_, ?_, ?_⟩ <;> intro e v ht hd <;>
    simp [forward_audio_translate, forward_response_translate, ht, hd]

/-- Witness for C1 at concrete envelopes: each of the three mappings,
evaluated on a sample message. -/
theorem claim_C1_witness :
    forward_audio_translate sampleAudio1 =
      TransResult.sent
        [("type", JVal.str "unmute.input_audio_buffer.append_pcm"),
         ("audio", JVal.str "AAA="), ("format", JVal.str "int16")] ∧
    forward_response_translate sampleAudioDelta =
      TransResult.sent
        [("type", JVal.str "robot.voice_audio"), ("audio", JVal.str "T3B1cw==")] ∧
    forward_response_translate sampleTextDelta =
      TransResult.sent
        [("type", JVal.str "robot.text"), ("text", JVal.str "hello")] :=
  ⟨claim_C1_translator_mappings.1 sampleAudio1 (JVal.str "AAA=")
      (by decide) (by decide),
   claim_C1_translator_mappings.2.1 sampleAudioDelta (JVal.str "T3B1cw==")
      (by decide) (by decide),
   claim_C1_translator_mappings.2.2 sampleTextDelta (JVal.str "hello")
      (by decide) (by decide)⟩

/-- C2: an inbound envelope whose type is not a recognized value of its
direction translates to drop, and a dropped message causes no send and no
logged error: the loop result on such a message is exactly the loop result
on the remaining messages. -/
theorem claim_C2_unrecognized_dropped :
    (∀ e : Envelope,
        jget e "type" ≠ some (JVal.str "audio") →
        forward_audio_translate e = TransResult.drop) ∧
    (∀ e : Envelope,
        jget e "type" ≠ some (JVal.str "response.audio.delta") →
        jget e "type" ≠ some (JVal.str "response.text.delta") →
        forward_response_translate e = TransResult.drop) ∧
    (∀ (e : Envelope) (b : Bool) (rest : List (Frame × Bool)),
        forward_audio_translate e = TransResult.drop →
        forward_audio_to_unmute ((Frame.ok e, b) :: rest) =
          forward_audio_to_unmute rest) ∧
    (∀ (e : Envelope) (b : Bool) (rest : List (Frame × Bool)),
        forward_response_translate e = TransResult.drop →
        forward_response_to_laptop ((Frame.ok e, b) :: rest) =
          forward_response_to_laptop rest) := by
  refine ⟨?_, ?_, ?_, ?_⟩
  · intro e ht; simp [forward_audio_translate, ht]
  · intro e h1 h2; simp [forward_response_translate, h1, h2]
  · intro e b rest hd
    simp [forward_audio_to_unmute, runLoop, hd]
  · intro e b rest hd
    simp [forward_response_to_laptop, runLoop, hd]

/-- Witness for C2 at a concrete unrecognized envelope (type "ping"): the
translation is drop on both sides and the loop result is unchanged. -/
theorem claim_C2_witness :
    forward_audio_translate [("type", JVal.str "ping")] = TransResult.drop ∧
    forward_response_translate [("type", JVal.str "ping")] = TransResult.drop ∧
    forward_audio_to_unmute ((Frame.ok [("type", JVal.str "ping")], true) ::
        [(Frame.ok sampleAudio1, true)]) =
      forward_audio_to_unmute [(Frame.ok sampleAudio1, true)] ∧
    forward_response_to_laptop ((Frame.ok [("type", JVal.str "ping")], true) ::
        [(Frame.ok sampleTextDelta, true)]) =
      forward_response_to_laptop [(Frame.ok sampleTextDelta, true)] :=
  ⟨claim_C2_unrecognized_dropped.1 _ (by decide),
   claim_C2_unrecognized_dropped.2.1 _ (by decide) (by decide),
   claim_C2_unrecognized_dropped.2.2.1 _ true _
     (claim_C2_unrecognized_dropped.1 _ (by decide)),
   claim_C2_unrecognized_dropped.2.2.2 _ true _
     (claim_C2_unrecognized_dropped.2.1 _ (by decide) (by decide))⟩

/-- C3: a recognized type missing its required source field translates to
the recoverable per-message failure (KeyError caught by the blanket
handler): nothing is sent for that message, one error is logged, and the
loop continues with the remaining messages. -/
theorem claim_C3_missing_field_recovered :
    (∀ e : Envelope,
        jget e "type" = some (JVal.str "audio") →
        jget e "data" = none →
        forward_audio_translate e = TransResult.fieldError) ∧
    (∀ e : Envelope,
        jget e "type" = some (JVal.str "response.audio.delta") →
        jget e "delta" = none →
        forward_response_translate e = TransResult.fieldError) ∧
    (∀ e : Envelope,
        jget e "type" = some (JVal.str "response.text.delta") →
        jget e "delta" = none →
        forward_response_translate e = TransResult.fieldError) ∧
    (∀ (t : Envelope → TransResult) (e : Envelope) (b : Bool)
        (rest : List (Frame × Bool)),
        t e = TransResult.fieldError →
        runLoop t ((Frame.ok e, b) :: rest) =
          ((runLoop t rest).1, (runLoop t rest).2 + 1)) := by
  refine ⟨?_, ?_, ?_, ?_⟩
  · intro e ht hd; simp [forward_audio_translate, ht, hd]
  · intro e ht hd; simp [forward_response_translate, ht, hd]
  · intro e ht hd
    simp [forward_response_translate, ht, hd]
  · intro t e b rest hf
    simp [runLoop, hf]

/-- Witness for C3 at concrete malformed envelopes of each recognized
type, and the loop evaluated across one such message. -/
theorem claim_C3_witness :
    forward_audio_translate [("type", JVal.str "audio")] =
      TransResult.fieldError ∧
    forward_response_translate [("type", JVal.str "response.audio.delta")] =
      TransResult.fieldError ∧
    forward_response_translate [("type", JVal.str "response.text.delta")] =
      TransResult.fieldError ∧
    runLoop forward_audio_translate
        ((Frame.ok [("type", JVal.str "audio")], true) ::
          [(Frame.ok sampleAudio1, true)]) =
      ((runLoop forward_audio_translate [(Frame.ok sampleAudio1, true)]).1,
       (runLoop forward_audio_translate [(Frame.ok sampleAudio1, true)]).2 + 1) :=
  ⟨claim_C3_missing_field_recovered.1 _ (by decide) (by decide),
   claim_C3_missing_field_recovered.2.1 _ (by decide) (by decide),
   claim_C3_missing_field_recovered.2.2.1 _ (by decide) (by decide),
   claim_C3_missing_field_recovered.2.2.2 forward_audio_translate _ true _
     (claim_C3_missing_field_recovered.1 _ (by decide) (by decide))⟩

/-- The property asserted by claim C4 for the send direction, stated over
the embedding: a TransportError raised by the send call on the destination
connection terminates the loop, so when the very first received message
translates successfully but its send fails, nothing is ever sent by the
loop (neither that message nor any later one). -/
def sendErrorTerminatesLoop : Prop :=
  ∀ (t : Envelope → TransResult) (e out : Envelope) (rest : List (Frame × Bool)),
    t e = TransResult.sent out →
    (runLoop t ((Frame.ok e, false) :: rest)).1 = []

/-- C4 counterexample: in the source the send call sits inside the
per-message try block, so its exception is caught and logged and the loop
keeps going; with the first send failing and a second audio message
following, the second message is still translated and sent. -/
theorem claim_C4_counterexample : ¬ sendErrorTerminatesLoop := fun h =>
  absurd
    (h forward_audio_translate sampleAudio1
      [("type", JVal.str "unmute.input_audio_buffer.append_pcm"),
       ("audio", JVal.str "AAA="), ("format", JVal.str "int16")]
      [(Frame.ok sampleAudio2, true)] (by decide))
    (by decide)

/-- C4 amended: a TransportError raised by send() on the destination is
caught by the per-message exception handler of the loop body: the message
is logged as an error and dropped, and the loop continues with the
remaining messages unchanged; each directional loop terminates only when
its receive stream ends, which is then the terminal result of the
session. -/
theorem claim_C4_send_error_caught :
    ∀ (t : Envelope → TransResult) (e out : Envelope)
      (rest : List (Frame × Bool)),
      t e = TransResult.sent out →
      runLoop t ((Frame.ok e, false) :: rest) =
        ((runLoop t rest).1, (runLoop t rest).2 + 1) := by
  intro t e out rest hs
  simp [runLoop, hs]

/-- Witness for the amended C4 at a concrete run: the first audio message
has a failing send, the second is still forwarded. -/
theorem claim_C4_witness :
    runLoop forward_audio_translate
        ((Frame.ok sampleAudio1, false) :: [(Frame.ok sampleAudio2, true)]) =
      ((runLoop forward_audio_translate [(Frame.ok sampleAudio2, true)]).1,
       (runLoop forward_audio_translate [(Frame.ok sampleAudio2, true)]).2 + 1) :=
  claim_C4_send_error_caught forward_audio_translate sampleAudio1
    [("type", JVal.str "unmute.input_audio_buffer.append_pcm"),
     ("audio", JVal.str "AAA="), ("format", JVal.str "int16")]
    [(Frame.ok sampleAudio2, true)] (by decide)

/-- The property asserted by claim C5, stated over the embedding: a frame
that cannot be decoded as JSON is a TransportError-class failure that
terminates the receiving loop, so when such a frame arrives first, nothing
is ever sent by the loop. -/
def unparsableFrameTerminatesLoop : Prop :=
  ∀ (t : Envelope → TransResult) (b : Bool) (rest : List (Frame × Bool)),
    (runLoop t ((Frame.bad, b) :: rest)).1 = []

/-- C5 counterexample: json.loads runs inside the per-message try block,
so a frame that fails JSON decoding is caught and logged and the loop
keeps going; a valid audio message after the undecodable frame is still
forwarded. -/
theorem claim_C5_counterexample : ¬ unparsableFrameTerminatesLoop := fun h =>
  absurd
    (h forward_audio_translate true [(Frame.ok sampleAudio1, true)])
    (by decide)

/-- C5 amended: a received frame that fails JSON decoding raises inside
the per-message try block and is caught by the blanket handler: it is
logged and dropped and the loop continues, exactly like a
malformed-but-decodable message; only transport-level closure of the
receive stream ends a forwarding loop. -/
theorem claim_C5_bad_frame_recovered :
    ∀ (t : Envelope → TransResult) (b : Bool) (rest : List (Frame × Bool)),
      runLoop t ((Frame.bad, b) :: rest) =
        ((runLoop t rest).1, (runLoop t rest).2 + 1) := by
  intro t b rest
  simp [runLoop]

/-- The property asserted by claim C6, stated over the embedding of the
gather at source line 73: the session ends as soon as the first of the two
forwarding loops terminates, whether that loop ended successfully or by
raising. -/
def sessionEndsAtFirstTermination : Prop :=
  ∀ a b : TaskStatus,
    (a ≠ TaskStatus.running ∨ b ≠ TaskStatus.running) →
    gatherCompleted a b = true

/-- C6 counterexample: with one loop finished cleanly and the other still
running, asyncio.gather has not completed, so the session is still alive
with a single live direction. -/
theorem claim_C6_counterexample : ¬ sessionEndsAtFirstTermination := fun h =>
  absurd
    (h TaskStatus.done TaskStatus.running (Or.inl (by decide)))
    (by decide)

/-- C6 amended: the relay session ends as soon as either forwarding loop
raises an exception, but a loop that merely finished cleanly does not end
the session: the gather at line 73 completes exactly when some loop has
raised or both loops have finished. (Once it completes, the nested
connection context managers close both connections before the supervisor
reconnects; the gather does not cancel a still-running sibling loop.) -/
theorem claim_C6_gather_completion :
    ∀ a b : TaskStatus,
      gatherCompleted a b = true ↔
        (a = TaskStatus.raised ∨ b = TaskStatus.raised ∨
          (a = TaskStatus.done ∧ b = TaskStatus.done)) := by
  intro a b
  cases a <;> cases b <;> decide

/-- C7: within one direction order is preserved: on any received sequence
with every send accepted, the sent sequence is exactly the
order-preserving map of the translation over the received frames with the
drops removed. -/
theorem claim_C7_order_preserved :
    (∀ frames : List Frame,
        (forward_audio_to_unmute (frames.map (fun f => (f, true)))).1 =
          frames.filterMap (translatedOutput forward_audio_translate)) ∧
    (∀ frames : List Frame,
        (forward_response_to_laptop (frames.map (fun f => (f, true)))).1 =
          frames.filterMap (translatedOutput forward_response_translate)) :=
  ⟨fun frames => runLoop_allSendsOk forward_audio_translate frames,
   fun frames => runLoop_allSendsOk forward_response_translate frames⟩

/-- The property asserted by claim C8, stated over the embedding of the
while loop of run_bridge: after every iteration ending (failed connect or
ended session) the supervisor waits at least BACKOFF_SECONDS before the
next connect attempt. -/
def alwaysBacksOff : Prop :=
  ∀ e : IterationEnd, BACKOFF_SECONDS ≤ run_bridge_delay e

/-- C8 counterexample: asyncio.sleep(3) sits only in the except branch, so
an iteration whose body completes without an exception (both loops
returned cleanly) reaches the next connect attempt with no delay. -/
theorem claim_C8_counterexample : ¬ alwaysBacksOff := fun h =>
  absurd (h IterationEnd.cleanReturn) (by decide)

/-- C8 amended: after every iteration that ends with an exception — a
failed connect attempt or a session torn down by an error — the supervisor
waits exactly the configured 3 time-units before the next connect attempt,
and it retries indefinitely with no terminal failure state; an iteration
whose session ends cleanly (both loops return without raising) is followed
immediately by the next connect attempt, with no backoff. -/
theorem claim_C8_backoff :
    run_bridge_delay IterationEnd.byException = 3 ∧
    run_bridge_delay IterationEnd.cleanReturn = 0 ∧
    (∀ e : IterationEnd, run_bridge_continues e = true) :=
  ⟨rfl, rfl, fun _ => rfl⟩

/-- A variant of sampleAudio1 carrying extra unrelated fields, used to
instantiate the noninterference statement of C10. -/
def sampleAudioExtra : Envelope :=
  [("seq", JVal.num 7), ("type", JVal.str "audio"),
   ("data", JVal.str "AAA="), ("flag", JVal.boolean true)]

/-- C9: schema invariant of everything the bridge ever sends.  Every
envelope sent toward the speech side has exactly the fields type, audio,
format with type "unmute.input_audio_buffer.append_pcm" and format
"int16"; every envelope sent toward the robot side has exactly the fields
type, audio with type "robot.voice_audio", or exactly the fields type,
text with type "robot.text"; and no successfully translated envelope
equals its inbound envelope, so nothing is forwarded verbatim and extra
inbound fields never reach an outbound envelope. -/
theorem claim_C9_output_schema :
    (∀ (frames : List (Frame × Bool)) (out : Envelope),
        out ∈ (forward_audio_to_unmute frames).1 →
        ∃ v, out = [("type", JVal.str "unmute.input_audio_buffer.append_pcm"),
                    ("audio", v), ("format", JVal.str "int16")]) ∧
    (∀ (frames : List (Frame × Bool)) (out : Envelope),
        out ∈ (forward_response_to_laptop frames).1 →
        (∃ v, out = [("type", JVal.str "robot.voice_audio"), ("audio", v)]) ∨
        (∃ v, out = [("type", JVal.str "robot.text"), ("text", v)])) ∧
    (∀ e out : Envelope,
        forward_audio_translate e = TransResult.sent out → out ≠ e) ∧
    (∀ e out : Envelope,
        forward_response_translate e = TransResult.sent out → out ≠ e) := by
  refine ⟨?_, ?_, ?_, ?_⟩
  · intro frames out hmem
    simp only [forward_audio_to_unmute] at hmem
    obtain ⟨e, he⟩ := runLoop_mem_sent hmem
    exact forward_audio_sent_shape he
  · intro frames out hmem
    simp only [forward_response_to_laptop] at hmem
    obtain ⟨e, he⟩ := runLoop_mem_sent hmem
    exact forward_response_sent_shape he
  · intro e out hs heq
    obtain ⟨v, hv⟩ := forward_audio_sent_shape hs
    have ht := forward_audio_sent_type hs
    rw [← heq, hv] at ht
    simp [jget] at ht
  · intro e out hs heq
    have ht := forward_response_sent_type hs
    rcases forward_response_sent_shape hs with ⟨v, hv⟩ | ⟨v, hv⟩ <;>
      rcases ht with ht | ht <;>
      (rw [← heq, hv] at ht; simp [jget] at ht)

/-- Witness for C9 at concrete runs of both loops and at concrete
translations. -/
theorem claim_C9_witness :
    (∃ v, [("type", JVal.str "unmute.input_audio_buffer.append_pcm"),
           ("audio", JVal.str "AAA="), ("format", JVal.str "int16")] =
      [("type", JVal.str "unmute.input_audio_buffer.append_pcm"),
       ("audio", v), ("format", JVal.str "int16")]) ∧
    ((∃ v, [("type", JVal.str "robot.text"), ("text", JVal.str "hello")] =
        [("type", JVal.str "robot.voice_audio"), ("audio", v)]) ∨
     (∃ v, [("type", JVal.str "robot.text"), ("text", JVal.str "hello")] =
        [("type", JVal.str "robot.text"), ("text", v)])) ∧
    [("type", JVal.str "unmute.input_audio_buffer.append_pcm"),
     ("audio", JVal.str "AAA="), ("format", JVal.str "int16")] ≠ sampleAudio1 :=
  ⟨claim_C9_output_schema.1 [(Frame.ok sampleAudio1, true)] _ (by decide),
   claim_C9_output_schema.2.1 [(Frame.ok sampleTextDelta, true)] _ (by decide),
   claim_C9_output_schema.2.2.1 sampleAudio1 _ (by decide)⟩

/-- C10: translation output depends only on the type discriminator and
the single mapped source field: two inbound envelopes agreeing on type and
on data (robot side) or delta (speech side) translate identically, whatever
other fields they carry. -/
theorem claim_C10_depends_only_on_mapped_fields :
    (∀ e1 e2 : Envelope,
        jget e1 "type" = jget e2 "type" →
        jget e1 "data" = jget e2 "data" →
        forward_audio_translate e1 = forward_audio_translate e2) ∧
    (∀ e1 e2 : Envelope,
        jget e1 "type" = jget e2 "type" →
        jget e1 "delta" = jget e2 "delta" →
        forward_response_translate e1 = forward_response_translate e2) := by
  constructor <;> intro e1 e2 ht hf <;>
    simp only [forward_audio_translate, forward_response_translate, ht, hf]

/-- Witness for C10: an audio envelope and a variant with extra unrelated
fields translate to the same outbound envelope. -/
theorem claim_C10_witness :
    forward_audio_translate sampleAudio1 =
      forward_audio_translate sampleAudioExtra :=
  claim_C10_depends_only_on_mapped_fields.1 sampleAudio1 sampleAudioExtra
    (by decide) (by decide)

end UnmuteBridge
